import Mathlib

/-!
Verification of the MaLDReTH Streamlit application (streamlit_app.py).

The file shallowly embeds the data-access and layout code of the
application: the SQLite tables become lists of row structures, the
queries become pure functions over them, the CSV import becomes a
function threading the database state through an Except monad (an
exception raised while the sqlite3 connection context manager is open
rolls the implicit transaction back), and the Plotly edge drawing of
create_lifecycle_visualization becomes a function producing line
traces.  Numbers appearing in the layout code are modelled as
rationals; the only floating-point operations the source performs on
them are multiplications by 1, -1 and the literal 0.8, which are exact,
so the rational model is faithful.
-/

namespace Maldreth

/-! ## Data model

Rows of the four SQLite tables (resources/schema.sql is not part of the
sources; the column lists follow the INSERT/SELECT statements of
streamlit_app.py and the data model section of the design document).
tools.category_id is nullable because import_tool_data can insert None
into it. -/

structure StageRow where
  id : Int
  name : String
  description : String
  order_index : Int
deriving DecidableEq

structure CatRow where
  id : Int
  stage_id : Int
  name : String
  description : String
deriving DecidableEq

structure ToolRow where
  id : Int
  category_id : Option Int
  name : String
  description : String
deriving DecidableEq

structure ConnRow where
  from_stage_id : Int
  to_stage_id : Int
  connection_type : String
deriving DecidableEq

structure DB where
  stages : List StageRow
  tool_categories : List CatRow
  tools : List ToolRow
  connections : List ConnRow
deriving DecidableEq

/-- SQLite assigns a fresh rowid one above the largest existing one. -/
def newRowId (ids : List Int) : Int := ids.foldr max 0 + 1

/-! ## String helpers

SQLite compares TEXT with the BINARY collation: byte order of the
UTF-8 encodings, which coincides with code-point order. -/

/-- Code-point (UTF-8 byte) order on character lists. -/
def lexLe : List Char → List Char → Bool
  | [], _ => true
  | _ :: _, [] => false
  | a :: as, b :: bs =>
    if a.toNat < b.toNat then true
    else if a.toNat = b.toNat then lexLe as bs
    else false

/-- SQLite BINARY collation order on strings. -/
def strLe (a b : String) : Bool := lexLe a.data b.data

/-- Whitespace characters removed by Python str.strip (the ones
relevant to ASCII CSV content). -/
def isWS (c : Char) : Bool := (c == ' ') || (c == '\t') || (c == '\n') || (c == '\r')

def trimChars (l : List Char) : List Char :=
  ((l.dropWhile isWS).reverse.dropWhile isWS).reverse

/-- Python str.strip(). -/
def pyStrip (s : String) : String := ⟨trimChars s.data⟩

/-- Python str.split with separator a comma; "".split gives a single
empty field. -/
def splitComma : List Char → List (List Char)
  | [] => [[]]
  | c :: cs =>
    if c = ',' then [] :: splitComma cs
    else
      match splitComma cs with
      | [] => [[c]]
      | h :: t => (c :: h) :: t

/-! ## SQLite LIKE

The default LIKE of SQLite is case-insensitive for the ASCII letters
only, and the characters percent and underscore in the pattern are
wildcards.  search_tools interpolates the user query between two
percent signs, so wildcards inside the query keep their special
meaning. -/

/-- ASCII lower-casing, as applied by the SQLite LIKE operator. -/
def asciiLower (c : Char) : Char :=
  if 'A' ≤ c ∧ c ≤ 'Z' then Char.ofNat (c.toNat + 32) else c

def lowers (l : List Char) : List Char := l.map asciiLower

/-- Does g accept some suffix of the list? -/
def anySuffix (g : List Char → Bool) : List Char → Bool
  | [] => g []
  | c :: ts => g (c :: ts) || anySuffix g ts

/-- SQLite LIKE pattern matching (pattern, then text). -/
def likeMatch : List Char → List Char → Bool
  | [], t => t.isEmpty
  | q :: ps, t =>
    if q = '%' then anySuffix (fun s => likeMatch ps s) t
    else
      match t with
      | [] => false
      | c :: ts =>
        if q = '_' then likeMatch ps ts
        else (asciiLower q == asciiLower c) && likeMatch ps ts

/-- The needle occurs as a contiguous sublist of the haystack. -/
def containsSub (n : List Char) : List Char → Bool
  | [] => n.isEmpty
  | c :: ts => n.isPrefixOf (c :: ts) || containsSub n ts

/-- The query holds no LIKE wildcard character. -/
def noWild (l : List Char) : Bool := l.all (fun c => (c != '%') && (c != '_'))

/-- The design document's wording for search: the query occurs in the
text as a case-insensitive substring. -/
def specMatchesCI (q text : String) : Bool :=
  containsSub (lowers q.data) (lowers text.data)

/-! ## Sorting (the ORDER BY clauses)

A straightforward insertion sort; any sorting function models the
ORDER BY of a query, since SQLite leaves the order of ties
unspecified. -/

def insortBy (le : α → α → Bool) (a : α) : List α → List α
  | [] => [a]
  | b :: bs => if le a b then a :: b :: bs else b :: insortBy le a bs

def sortBy (le : α → α → Bool) : List α → List α
  | [] => []
  | a :: l => insortBy le a (sortBy le l)

/-- NULL sorts before every integer (ORDER BY with a nullable column). -/
def optIntLtB : Option Int → Option Int → Bool
  | none, some _ => true
  | some x, some y => decide (x < y)
  | _, _ => false

/-! ## The read-query layer -/

/-- Python truthiness of the optional integer filter argument: None and
0 are falsy, every other integer is truthy. -/
def truthyOpt : Option Int → Bool
  | none => false
  | some n => n != 0

/-- load_tool_categories(stage_id=None): filtered and ordered by name
when the argument is truthy, the whole table ordered by stage_id and
name otherwise. -/
def load_tool_categories (db : DB) (stage_id : Option Int) : List CatRow :=
  if truthyOpt stage_id then
    sortBy (fun a b => strLe a.name b.name)
      (db.tool_categories.filter (fun r => some r.stage_id == stage_id))
  else
    sortBy (fun a b =>
        decide (a.stage_id < b.stage_id) ||
          ((a.stage_id == b.stage_id) && strLe a.name b.name))
      db.tool_categories

/-- load_tools(category_id=None); the SQL comparison category_id = ?
never matches a row whose stored category_id is NULL. -/
def load_tools (db : DB) (category_id : Option Int) : List ToolRow :=
  if truthyOpt category_id then
    sortBy (fun a b => strLe a.name b.name)
      (db.tools.filter (fun r => r.category_id == category_id))
  else
    sortBy (fun a b =>
        optIntLtB a.category_id b.category_id ||
          ((a.category_id == b.category_id) && strLe a.name b.name))
      db.tools

/-- One result row of search_tools: the tool columns joined with the
owning category and stage names and ids.  stage_order carries
s.order_index, which the SQL query only reads for its ORDER BY. -/
structure SearchRow where
  tool : ToolRow
  category_name : String
  stage_name : String
  category_id : Int
  stage_id : Int
  stage_order : Int
deriving DecidableEq

/-- The two inner joins of the search query. -/
def joinRows (db : DB) : List SearchRow :=
  db.tools.flatMap (fun t =>
    db.tool_categories.flatMap (fun c =>
      if t.category_id == some c.id then
        db.stages.filterMap (fun s =>
          if c.stage_id == s.id then
            some ⟨t, c.name, s.name, c.id, s.id, s.order_index⟩
          else none)
      else []))

/-- ORDER BY s.order_index, c.name, t.name. -/
def searchLe (a b : SearchRow) : Bool :=
  decide (a.stage_order < b.stage_order) ||
    ((a.stage_order == b.stage_order) &&
      (strLe a.category_name b.category_name &&
        (!(strLe b.category_name a.category_name) ||
          strLe a.tool.name b.tool.name)))

/-- search_tools(query): the empty query short-circuits to an empty
list; otherwise the query is wrapped between two percent signs and
matched with LIKE against the tool name and description. -/
def search_tools (db : DB) (query : String) : List SearchRow :=
  if query = "" then []
  else
    let pat : List Char := '%' :: (query.data ++ ['%'])
    sortBy searchLe ((joinRows db).filter (fun r =>
      likeMatch pat r.tool.name.data || likeMatch pat r.tool.description.data))

/-! ## CSV import

A pandas cell read from the CSV is either a string or NaN (the value
pandas substitutes for an empty cell; a column absent from the file
surfaces as the default empty string of row.get).  Calling .strip() on
NaN raises AttributeError; raising is modelled with Except. -/

inductive CsvVal where
  | str (s : String)
  | nan
deriving DecidableEq

structure CsvRow where
  stage : CsvVal
  category : CsvVal
  description : CsvVal
  examples : CsvVal
deriving DecidableEq

/-- row.get(column, default).strip(): NaN (a float) has no strip
attribute, so the call raises. -/
def stripVal : CsvVal → Except String String
  | .str s => .ok (pyStrip s)
  | .nan => .error "AttributeError"

/-- The body of the per-row loop of import_tool_data. -/
def importRow (db : DB) (row : CsvRow) : Except String DB := do
  let stage_name ← stripVal row.stage
  let category_name ← stripVal row.category
  let description ← stripVal row.description
  let tools ← stripVal row.examples
  if stage_name = "" || category_name = "" then
    return db
  else
    match db.stages.find? (fun s => s.name == stage_name) with
    | none => return db
    | some stage =>
      let cat_id := newRowId (db.tool_categories.map (fun c => c.id))
      let db1 : DB :=
        { db with tool_categories :=
            db.tool_categories ++ [⟨cat_id, stage.id, category_name, description⟩] }
      -- The code reads category_id from cursor.lastrowid, but cursor is
      -- the cursor that executed only the SELECT on stages; Python
      -- leaves lastrowid of such a cursor at None.
      let category_id : Option Int := none
      let names := ((splitComma tools.data).map (fun l => trimChars l)).filter
        (fun nm => nm ≠ [])
      return names.foldl (fun d nm =>
        { d with tools := d.tools ++
            [⟨newRowId (d.tools.map (fun t => t.id)), category_id,
              ⟨nm⟩, "Example tool for " ++ category_name⟩] }) db1

/-- The whole row loop, stopping at the first raised exception. -/
def importRows (db : DB) : List CsvRow → Except String DB
  | [] => .ok db
  | r :: rs =>
    match importRow db r with
    | .ok db1 => importRows db1 rs
    | .error e => .error e

/-- import_tool_data(db_path, csv_path): the csv argument is none when
pd.read_csv itself raises.  The row loop runs inside the sqlite3
connection context manager, which commits the implicit transaction on
success and rolls it back when an exception escapes the block; the
broad except then reports the error with st.error.  The result pairs
the database state left behind with the reported error, if any. -/
def import_tool_data (db : DB) (csv : Option (List CsvRow)) : DB × Option String :=
  match csv with
  | none => (db, some "Error importing tool data: read_csv raised")
  | some rows =>
    match importRows db rows with
    | .ok db1 => (db1, none)
    | .error e => (db, some ("Error importing tool data: " ++ e))

/-! ## Lifecycle visualization (edge drawing)

Only the connection-line part of create_lifecycle_visualization is
modelled; the node markers and figure layout carry no logic the claims
mention.  The radius is the literal 1 of the source and the angle list
is computed, as in the source, without ever being read again. -/

def radius : ℚ := 1

def angles (n : Nat) : List ℚ :=
  (List.range n).map (fun i => (i : ℚ) * 2 * (314159 / 100000) / (n : ℚ))

def x_positions (n : Nat) : List ℚ :=
  (List.range n).map (fun i => radius * (4/5) * (-1) * (-1) ^ (i % 2))

def y_positions (n : Nat) : List ℚ :=
  (List.range n).map (fun i => radius * (-1) ^ (i % 2))

/-- One go.Scatter line trace: the two x coordinates, the two y
coordinates, and whether the line style carries dash=dash. -/
structure LineTrace where
  x : List ℚ
  y : List ℚ
  dashed : Bool
deriving DecidableEq

/-- Python list indexing: a negative index wraps once from the end;
an index out of range on either side raises IndexError. -/
def pyIndex (l : List ℚ) (i : Int) : Except String ℚ :=
  let j : Int := if i < 0 then i + l.length else i
  if h : 0 ≤ j ∧ j < (l.length : Int) then
    .ok (l.get ⟨j.toNat, by omega⟩)
  else .error "IndexError"

/-- Processing of one connection: the bound check of the source tests
only the upper bounds of the shifted indices. -/
def connLine (nStages : Nat) (xs ys : List ℚ) (c : ConnRow) :
    Except String (Option LineTrace) :=
  let fromId : Int := c.from_stage_id - 1
  let toId : Int := c.to_stage_id - 1
  if fromId < (nStages : Int) ∧ toId < (nStages : Int) then
    match pyIndex xs fromId, pyIndex xs toId, pyIndex ys fromId, pyIndex ys toId with
    | .ok xf, .ok xt, .ok yf, .ok yt =>
      .ok (some ⟨[xf, xt], [yf, yt], c.connection_type == "alternative"⟩)
    | .error e, _, _, _ => .error e
    | _, .error e, _, _ => .error e
    | _, _, .error e, _ => .error e
    | _, _, _, .error e => .error e
  else .ok none

def connectionLines (nStages : Nat) (xs ys : List ℚ) :
    List ConnRow → Except String (List LineTrace)
  | [] => .ok []
  | c :: cs =>
    match connLine nStages xs ys c with
    | .ok (some tr) =>
      match connectionLines nStages xs ys cs with
      | .ok rest => .ok (tr :: rest)
      | .error e => .error e
    | .ok none => connectionLines nStages xs ys cs
    | .error e => .error e

/-- The connection traces added by create_lifecycle_visualization. -/
def create_lifecycle_visualization (stages : List StageRow) (conns : List ConnRow) :
    Except String (List LineTrace) :=
  connectionLines stages.length (x_positions stages.length)
    (y_positions stages.length) conns

/-- The design document's per-stage x coordinate: minus 0.8 times the
radius at even indices, plus 0.8 times the radius at odd ones. -/
def specX (i : Nat) : ℚ := if i % 2 = 0 then -(4/5) * radius else (4/5) * radius

/-- The design document's per-stage y coordinate: plus the radius at
even indices, minus the radius at odd ones. -/
def specY (i : Nat) : ℚ := if i % 2 = 0 then radius else -radius

/-- The line trace the specification predicts for one connection, for
connections with both stage ids at least 1. -/
def lineFor (n : Nat) (c : ConnRow) : Option LineTrace :=
  if c.from_stage_id - 1 < (n : Int) ∧ c.to_stage_id - 1 < (n : Int) then
    some ⟨[specX (c.from_stage_id - 1).toNat, specX (c.to_stage_id - 1).toNat],
          [specY (c.from_stage_id - 1).toNat, specY (c.to_stage_id - 1).toNat],
          c.connection_type == "alternative"⟩
  else none

/-! ## Concrete fixtures used by witnesses and counterexamples -/

/-- A stages table holding the Collect stage. -/
def stagesCollect : List StageRow := [⟨4, "Collect", "Gathering data", 4⟩]

/-- A freshly initialised database: stages seeded, no categories or
tools yet. -/
def dbCollect : DB := ⟨stagesCollect, [], [], []⟩

/-- The CSV row of the specification example. -/
def rowCollect : CsvRow :=
  ⟨.str "Collect", .str "Acquisition", .str "Data acquisition tools", .str "ToolA, ToolB"⟩

/-- A CSV row inserting one category and no tools. -/
def rowOnlyCat : CsvRow :=
  ⟨.str "Collect", .str "Acquisition", .str "Tools for collecting", .str ""⟩

/-- The state of the open transaction after processing rowOnlyCat. -/
def dbAfterCat : DB :=
  { dbCollect with tool_categories := [⟨1, 4, "Acquisition", "Tools for collecting"⟩] }

/-- A CSV row whose stage cell is empty: pandas reads it as NaN. -/
def rowNan : CsvRow := ⟨.nan, .str "Acquisition", .str "", .str ""⟩

/-- A database with one stage, one category and one tool, fully
linked. -/
def dbZ : DB :=
  ⟨[⟨1, "Store", "Storing data", 7⟩], [⟨2, 1, "Repositories", "Repo category"⟩],
   [⟨1, some 2, "Zenodo", "An open repository"⟩], []⟩

/-- The joined search row of the Zenodo tool of dbZ. -/
def searchRowZ : SearchRow :=
  ⟨⟨1, some 2, "Zenodo", "An open repository"⟩, "Repositories", "Store", 2, 1, 7⟩

/-- A database whose only stage has the falsy id 0, with a category
owned by a different stage id. -/
def dbZeroStage : DB := ⟨[⟨0, "Weird", "", 1⟩], [⟨1, 7, "Alpha", ""⟩], [], []⟩

/-- A database whose only category has the falsy id 0, with a tool
owned by a different category id. -/
def dbZeroCat : DB := ⟨[], [⟨0, 1, "Cat", ""⟩], [⟨1, some 3, "Tool", ""⟩], []⟩

/-- Two stages for the layout fixtures. -/
def stagesTwo : List StageRow := [⟨1, "A", "a", 1⟩, ⟨2, "B", "b", 2⟩]

/-- A connection whose from_stage_id is 0, giving the shifted index
-1. -/
def connZero : ConnRow := ⟨0, 2, "normal"⟩

/-- An in-range alternative connection. -/
def connAlt : ConnRow := ⟨1, 2, "alternative"⟩

/-- A connection whose target index exceeds the stage count. -/
def connBig : ConnRow := ⟨1, 5, "normal"⟩

/-! ## Basic lemmas about the helpers -/

theorem lexLe_cons_iff (x y : Char) (xs ys : List Char) :
    lexLe (x :: xs) (y :: ys) = true ↔
      x.toNat < y.toNat ∨ (x.toNat = y.toNat ∧ lexLe xs ys = true) := by
  simp only [lexLe]
  rcases Nat.lt_trichotomy x.toNat y.toNat with h | h | h
  · simp [h]
  · simp [h, Nat.lt_irrefl]
  · have h1 : ¬ x.toNat < y.toNat := by omega
    have h2 : x.toNat ≠ y.toNat := by omega
    simp [h1, h2]

theorem lexLe_total (a b : List Char) : lexLe a b = true ∨ lexLe b a = true := by
  induction a generalizing b with
  | nil => left; rfl
  | cons x xs ih =>
    cases b with
    | nil => right; rfl
    | cons y ys =>
      rw [lexLe_cons_iff, lexLe_cons_iff]
      rcases Nat.lt_trichotomy x.toNat y.toNat with h | h | h
      · left; exact Or.inl h
      · rcases ih ys with h2 | h2
        · left; exact Or.inr ⟨h, h2⟩
        · right; exact Or.inr ⟨h.symm, h2⟩
      · right; exact Or.inl h

theorem lexLe_trans (a b c : List Char) (h1 : lexLe a b = true)
    (h2 : lexLe b c = true) : lexLe a c = true := by
  induction a generalizing b c with
  | nil => rfl
  | cons x xs ih =>
    cases b with
    | nil => simp [lexLe] at h1
    | cons y ys =>
      cases c with
      | nil => simp [lexLe] at h2
      | cons z zs =>
        rw [lexLe_cons_iff] at h1 h2 ⊢
        rcases h1 with h1 | ⟨h1e, h1r⟩
        · rcases h2 with h2 | ⟨h2e, _⟩
          · exact Or.inl (by omega)
          · exact Or.inl (by omega)
        · rcases h2 with h2 | ⟨h2e, h2r⟩
          · exact Or.inl (by omega)
          · exact Or.inr ⟨by omega, ih ys zs h1r h2r⟩

theorem strLe_total (a b : String) : strLe a b = true ∨ strLe b a = true :=
  lexLe_total a.data b.data

theorem strLe_trans (a b c : String) (h1 : strLe a b = true)
    (h2 : strLe b c = true) : strLe a c = true :=
  lexLe_trans a.data b.data c.data h1 h2

theorem mem_insortBy (le : α → α → Bool) (a x : α) (l : List α) :
    x ∈ insortBy le a l ↔ x = a ∨ x ∈ l := by
  induction l with
  | nil => simp [insortBy]
  | cons b bs ih =>
    simp only [insortBy]
    split
    · simp [List.mem_cons]
    · simp only [List.mem_cons, ih]
      tauto

theorem mem_sortBy (le : α → α → Bool) (x : α) (l : List α) :
    x ∈ sortBy le l ↔ x ∈ l := by
  induction l with
  | nil => simp [sortBy]
  | cons b bs ih =>
    simp only [sortBy]
    rw [mem_insortBy, ih, List.mem_cons]

theorem pairwise_insortBy (le : α → α → Bool)
    (htr : ∀ a b c, le a b = true → le b c = true → le a c = true)
    (hto : ∀ a b, le a b = true ∨ le b a = true)
    (a : α) (l : List α) (hl : l.Pairwise (fun x y => le x y = true)) :
    (insortBy le a l).Pairwise (fun x y => le x y = true) := by
  induction l with
  | nil => simp [insortBy]
  | cons b bs ih =>
    rcases List.pairwise_cons.mp hl with ⟨hb, hbs⟩
    simp only [insortBy]
    split
    · next hab =>
      refine List.pairwise_cons.mpr ⟨?_, hl⟩
      intro x hx
      rcases List.mem_cons.mp hx with rfl | hx
      · exact hab
      · exact htr a b x hab (hb x hx)
    · next hab =>
      have hba : le b a = true := (hto a b).resolve_left (by simpa using hab)
      refine List.pairwise_cons.mpr ⟨?_, ih hbs⟩
      intro x hx
      rcases (mem_insortBy le a x bs).mp hx with rfl | hx
      · exact hba
      · exact hb x hx

theorem pairwise_sortBy (le : α → α → Bool)
    (htr : ∀ a b c, le a b = true → le b c = true → le a c = true)
    (hto : ∀ a b, le a b = true ∨ le b a = true)
    (l : List α) : (sortBy le l).Pairwise (fun x y => le x y = true) := by
  induction l with
  | nil => simp [sortBy]
  | cons b bs ih => exact pairwise_insortBy le htr hto b (sortBy le bs) ih

/-! ## LIKE patterns built from a wildcard-free query -/

theorem anySuffix_eq_true_iff (g : List Char → Bool) (t : List Char) :
    anySuffix g t = true ↔ ∃ n, g (t.drop n) = true := by
  induction t with
  | nil =>
    simp only [anySuffix, List.drop_nil]
    exact ⟨fun h => ⟨0, h⟩, fun ⟨_, h⟩ => h⟩
  | cons c ts ih =>
    simp only [anySuffix, Bool.or_eq_true, ih]
    constructor
    · rintro (h | ⟨n, h⟩)
      · exact ⟨0, h⟩
      · exact ⟨n + 1, h⟩
    · rintro ⟨n, h⟩
      cases n with
      | zero => exact Or.inl h
      | succ m => exact Or.inr ⟨m, h⟩

theorem likeMatch_percent_all (t : List Char) : likeMatch ['%'] t = true := by
  have : likeMatch ([] : List Char) (t.drop t.length) = true := by
    simp [likeMatch]
  simp only [likeMatch, if_pos rfl]
  exact (anySuffix_eq_true_iff _ t).mpr ⟨t.length, this⟩

theorem noWild_cons (c : Char) (l : List Char) (h : noWild (c :: l) = true) :
    c ≠ '%' ∧ c ≠ '_' ∧ noWild l = true := by
  simp only [noWild, List.all_cons, Bool.and_eq_true, bne_iff_ne] at h
  exact ⟨h.1.1, h.1.2, h.2⟩

theorem likeMatch_literal_percent (q : List Char) (hq : noWild q = true) (t : List Char) :
    likeMatch (q ++ ['%']) t = (lowers q).isPrefixOf (lowers t) := by
  induction q generalizing t with
  | nil =>
    rw [List.nil_append, likeMatch_percent_all]
    simp [lowers, List.isPrefixOf]
  | cons a q ih =>
    rcases noWild_cons a q hq with ⟨ha1, ha2, hq2⟩
    rw [List.cons_append]
    simp only [likeMatch, if_neg ha1]
    cases t with
    | nil => simp [lowers, List.isPrefixOf]
    | cons c ts =>
      simp only [if_neg ha2, lowers, List.map_cons, List.isPrefixOf_cons₂]
      exact congrArg (fun b => (asciiLower a == asciiLower c) && b) (ih hq2 ts)

theorem containsSub_eq_true_iff (n h : List Char) :
    containsSub n h = true ↔ ∃ k, n.isPrefixOf (h.drop k) = true := by
  induction h with
  | nil =>
    simp only [containsSub, List.drop_nil]
    constructor
    · intro hh
      refine ⟨0, ?_⟩
      cases n with
      | nil => rfl
      | cons a as => simp [List.isEmpty] at hh
    · rintro ⟨k, hk⟩
      cases n with
      | nil => rfl
      | cons a as => simp [List.isPrefixOf] at hk
  | cons c ts ih =>
    simp only [containsSub, Bool.or_eq_true, ih]
    constructor
    · rintro (h1 | ⟨k, hk⟩)
      · exact ⟨0, h1⟩
      · exact ⟨k + 1, hk⟩
    · rintro ⟨k, hk⟩
      cases k with
      | zero => exact Or.inl hk
      | succ m => exact Or.inr ⟨m, hk⟩

/-- The LIKE pattern that search_tools builds from a wildcard-free
query matches a text exactly when the ASCII-lowered query is a
contiguous substring of the ASCII-lowered text. -/
theorem likeMatch_leading_percent (ps t : List Char) :
    likeMatch ('%' :: ps) t = anySuffix (fun s => likeMatch ps s) t := by
  simp [likeMatch]

theorem likeMatch_pattern_iff (q t : List Char) (hq : noWild q = true) :
    likeMatch ('%' :: (q ++ ['%'])) t = true ↔
      containsSub (lowers q) (lowers t) = true := by
  rw [likeMatch_leading_percent]
  rw [anySuffix_eq_true_iff, containsSub_eq_true_iff]
  constructor
  · rintro ⟨n, hn⟩
    refine ⟨n, ?_⟩
    rw [likeMatch_literal_percent q hq] at hn
    simp only [lowers] at hn ⊢
    rwa [List.map_drop] at hn
  · rintro ⟨k, hk⟩
    refine ⟨k, ?_⟩
    rw [likeMatch_literal_percent q hq, lowers, lowers, List.map_drop]
    rwa [lowers, lowers] at hk

/-! ## The import loop -/

theorem importRows_append (db : DB) (xs ys : List CsvRow) :
    importRows db (xs ++ ys) =
      match importRows db xs with
      | .ok d => importRows d ys
      | .error e => .error e := by
  induction xs generalizing db with
  | nil => rfl
  | cons x xs ih =>
    simp only [List.cons_append, importRows]
    cases importRow db x with
    | ok d => exact ih d
    | error e => rfl

/-! ## Claim theorems: CSV import -/

/-- Claim C1: a CSV row with an existing stage name, a category name
and two example names produces exactly one tool_categories row for the
stage and one tools row per example; but the tools rows carry
category_id NULL instead of the id of the category row just inserted,
because the code reads lastrowid off the cursor that only executed the
stage SELECT. -/
theorem c1_import_row_inserts :
    import_tool_data dbCollect (some [rowCollect]) =
      ({ dbCollect with
          tool_categories := [⟨1, 4, "Acquisition", "Data acquisition tools"⟩],
          tools := [⟨1, none, "ToolA", "Example tool for Acquisition"⟩,
                    ⟨2, none, "ToolB", "Example tool for Acquisition"⟩] }, none) ∧
    ∀ t ∈ (import_tool_data dbCollect (some [rowCollect])).1.tools,
      t.category_id = none :=
  ⟨by rfl, by decide⟩

/-- Claim C2 (amended): when a row of the CSV raises after earlier rows
were inserted, the exception is caught and reported, and the sqlite3
connection context manager rolls the open transaction back, so the
committed database is exactly the one from before the import; no
partially imported rows remain. -/
theorem c2_import_error_rolls_back (db db1 : DB) (rows1 rows2 : List CsvRow)
    (r : CsvRow) (e : String)
    (h1 : importRows db rows1 = .ok db1) (h2 : importRow db1 r = .error e) :
    import_tool_data db (some (rows1 ++ r :: rows2)) =
      (db, some ("Error importing tool data: " ++ e)) := by
  have hall : importRows db (rows1 ++ r :: rows2) = .error e := by
    rw [importRows_append, h1]
    simp only [importRows, h2]
  simp only [import_tool_data, hall]

/-- Witness for c2_import_error_rolls_back at a concrete import run. -/
theorem c2_import_error_rolls_back_witness :
    importRows dbCollect [rowOnlyCat] = .ok dbAfterCat ∧
    importRow dbAfterCat rowNan = .error "AttributeError" ∧
    import_tool_data dbCollect (some ([rowOnlyCat] ++ rowNan :: [])) =
      (dbCollect, some ("Error importing tool data: " ++ "AttributeError")) :=
  ⟨by rfl, by rfl,
    c2_import_error_rolls_back dbCollect dbAfterCat [rowOnlyCat] [] rowNan
      "AttributeError" (by rfl) (by rfl)⟩

/-- Claim C2 counterexample: after the first CSV row the open
transaction holds a category row, yet when the second row raises, the
rollback leaves the committed database unchanged: the rows inserted
before the failure do not remain. -/
theorem c2_partial_rows_dropped :
    importRows dbCollect [rowOnlyCat] = .ok dbAfterCat ∧
    dbAfterCat.tool_categories ≠ [] ∧
    import_tool_data dbCollect (some [rowOnlyCat, rowNan]) =
      (dbCollect, some "Error importing tool data: AttributeError") ∧
    dbCollect.tool_categories = [] :=
  ⟨by rfl, by decide, by rfl, rfl⟩

/-- Claim C9: a row whose stage or category field is a blank string
after stripping, or whose stage name matches no stage, is skipped
without insertion or error; but a row whose stage cell is empty in the
file is read by pandas as NaN, and stripping NaN raises, aborting
the whole run with a reported error instead of skipping the row. -/
theorem c9_blank_skipped_nan_raises :
    import_tool_data dbCollect
        (some [⟨.str "  ", .str "Acquisition", .str "", .str ""⟩]) =
      (dbCollect, none) ∧
    import_tool_data dbCollect
        (some [⟨.str "Collect", .str " ", .str "", .str ""⟩]) =
      (dbCollect, none) ∧
    import_tool_data dbCollect
        (some [⟨.str "Unknown", .str "Acquisition", .str "", .str ""⟩]) =
      (dbCollect, none) ∧
    (import_tool_data dbCollect (some [rowNan])).2 ≠ none :=
  ⟨by rfl, by rfl, by rfl, by decide⟩

/-! ## Claim theorems: the read-query layer -/

/-- Claim C6 (amended): for every stage whose id is nonzero,
load_tool_categories returns only category rows owned by that stage,
ordered by category name; a stage id of 0 is falsy in Python and would
skip the filter. -/
theorem c6_load_tool_categories_filtered (db : DB) (S : StageRow)
    (_hS : S ∈ db.stages) (h0 : S.id ≠ 0) :
    (∀ r ∈ load_tool_categories db (some S.id), r.stage_id = S.id) ∧
    (load_tool_categories db (some S.id)).Pairwise
      (fun a b => strLe a.name b.name = true) := by
  have htru : truthyOpt (some S.id) = true := by
    simp [truthyOpt, h0]
  constructor
  · intro r hr
    unfold load_tool_categories at hr
    rw [if_pos htru, mem_sortBy] at hr
    rcases List.mem_filter.mp hr with ⟨_, hpred⟩
    simpa using hpred
  · unfold load_tool_categories
    rw [if_pos htru]
    exact pairwise_sortBy (fun (a b : CatRow) => strLe a.name b.name)
      (fun a b c h1 h2 => strLe_trans a.name b.name c.name h1 h2)
      (fun a b => strLe_total a.name b.name) _

/-- Witness for c6_load_tool_categories_filtered on dbZ. -/
theorem c6_load_tool_categories_filtered_witness :
    (⟨1, "Store", "Storing data", 7⟩ : StageRow) ∈ dbZ.stages ∧
    (1 : Int) ≠ 0 ∧
    ((∀ r ∈ load_tool_categories dbZ (some 1), r.stage_id = 1) ∧
      (load_tool_categories dbZ (some 1)).Pairwise
        (fun a b => strLe a.name b.name = true)) :=
  ⟨by decide, by decide,
    c6_load_tool_categories_filtered dbZ ⟨1, "Store", "Storing data", 7⟩
      (by decide) (by decide)⟩

/-- Claim C6 counterexample: a stage with id 0 exists while
load_tool_categories(0) returns a category row of another stage,
because 0 is falsy and the filter is skipped. -/
theorem c6_zero_id_stage_gets_all :
    (⟨0, "Weird", "", 1⟩ : StageRow) ∈ dbZeroStage.stages ∧
    ∃ r ∈ load_tool_categories dbZeroStage (some 0), r.stage_id ≠ 0 := by
  decide

/-- Claim C7 (amended): for every category whose id is nonzero,
load_tools returns only tool rows owned by that category, ordered by
tool name; a category id of 0 is falsy in Python and would skip the
filter. -/
theorem c7_load_tools_filtered (db : DB) (C : CatRow)
    (_hC : C ∈ db.tool_categories) (h0 : C.id ≠ 0) :
    (∀ r ∈ load_tools db (some C.id), r.category_id = some C.id) ∧
    (load_tools db (some C.id)).Pairwise
      (fun a b => strLe a.name b.name = true) := by
  have htru : truthyOpt (some C.id) = true := by
    simp [truthyOpt, h0]
  constructor
  · intro r hr
    unfold load_tools at hr
    rw [if_pos htru, mem_sortBy] at hr
    rcases List.mem_filter.mp hr with ⟨_, hpred⟩
    simpa using hpred
  · unfold load_tools
    rw [if_pos htru]
    exact pairwise_sortBy (fun (a b : ToolRow) => strLe a.name b.name)
      (fun a b c h1 h2 => strLe_trans a.name b.name c.name h1 h2)
      (fun a b => strLe_total a.name b.name) _

/-- Witness for c7_load_tools_filtered on dbZ. -/
theorem c7_load_tools_filtered_witness :
    (⟨2, 1, "Repositories", "Repo category"⟩ : CatRow) ∈ dbZ.tool_categories ∧
    (2 : Int) ≠ 0 ∧
    ((∀ r ∈ load_tools dbZ (some 2), r.category_id = some 2) ∧
      (load_tools dbZ (some 2)).Pairwise
        (fun a b => strLe a.name b.name = true)) :=
  ⟨by decide, by decide,
    c7_load_tools_filtered dbZ ⟨2, 1, "Repositories", "Repo category"⟩
      (by decide) (by decide)⟩

/-- Claim C7 counterexample: a category with id 0 exists while
load_tools(0) returns a tool row of another category, because 0 is
falsy and the filter is skipped. -/
theorem c7_zero_id_category_gets_all :
    (⟨0, 1, "Cat", ""⟩ : CatRow) ∈ dbZeroCat.tool_categories ∧
    ∃ r ∈ load_tools dbZeroCat (some 0), r.category_id ≠ some 0 := by
  decide

/-- Claim C8 (amended): a nonzero stage_id or category_id matching no
row yields the empty list, with no error; the falsy id 0 instead skips
the filter and returns the full table. -/
theorem c8_unmatched_nonzero_id_empty (db : DB) (n : Int) (hn : n ≠ 0)
    (hc : ∀ c ∈ db.tool_categories, c.stage_id ≠ n)
    (ht : ∀ t ∈ db.tools, t.category_id ≠ some n) :
    load_tool_categories db (some n) = [] ∧ load_tools db (some n) = [] := by
  have htru : truthyOpt (some n) = true := by
    simp [truthyOpt, hn]
  constructor
  · unfold load_tool_categories
    rw [if_pos htru]
    have hfil : db.tool_categories.filter (fun r => some r.stage_id == some n) = [] :=
      List.filter_eq_nil_iff.mpr (fun c hcm => by simpa using hc c hcm)
    rw [hfil]
    rfl
  · unfold load_tools
    rw [if_pos htru]
    have hfil : db.tools.filter (fun r => r.category_id == some n) = [] :=
      List.filter_eq_nil_iff.mpr (fun t htm => by simpa using ht t htm)
    rw [hfil]
    rfl

/-- Witness for c8_unmatched_nonzero_id_empty: id 99 matches nothing in
dbZ and both loads come back empty. -/
theorem c8_unmatched_nonzero_id_empty_witness :
    (99 : Int) ≠ 0 ∧
    (∀ c ∈ dbZ.tool_categories, c.stage_id ≠ 99) ∧
    (∀ t ∈ dbZ.tools, t.category_id ≠ some 99) ∧
    (load_tool_categories dbZ (some 99) = [] ∧ load_tools dbZ (some 99) = []) :=
  ⟨by decide, by decide, by decide,
    c8_unmatched_nonzero_id_empty dbZ 99 (by decide) (by decide) (by decide)⟩

/-- Claim C8 counterexample: stage_id 0 matches no category row of
dbZeroStage, yet load_tool_categories(0) is not empty: the falsy id
skips the filter and the whole table comes back. -/
theorem c8_zero_id_not_empty :
    (∀ c ∈ dbZeroStage.tool_categories, c.stage_id ≠ 0) ∧
    load_tool_categories dbZeroStage (some 0) ≠ [] := by
  decide

/-- Claim C10: the falsy filter value 0 behaves like None: the filter
is skipped and the full table is returned. -/
theorem c10_falsy_filter_returns_all (db : DB) :
    load_tool_categories db (some 0) = load_tool_categories db none ∧
    load_tools db (some 0) = load_tools db none ∧
    (∀ r, r ∈ load_tool_categories db (some 0) ↔ r ∈ db.tool_categories) ∧
    (∀ r, r ∈ load_tools db (some 0) ↔ r ∈ db.tools) := by
  refine ⟨rfl, rfl, ?_, ?_⟩
  · intro r
    exact mem_sortBy _ r db.tool_categories
  · intro r
    exact mem_sortBy _ r db.tools

/-! ## Claim theorems: search -/

/-- Claim C3 (amended): the empty query returns the empty list, and for
a non-empty query holding no LIKE wildcard, the rows returned are
exactly the joined tool rows whose name or description contains the
query as an ASCII-case-insensitive substring.  A query containing a
percent or underscore is interpreted as a LIKE wildcard instead. -/
theorem c3_search_tools_substring (db : DB) (q : String) (r : SearchRow)
    (hq : q ≠ "") (hw : noWild q.data = true) :
    search_tools db "" = [] ∧
    (r ∈ search_tools db q ↔
      r ∈ joinRows db ∧
        (specMatchesCI q r.tool.name = true ∨
          specMatchesCI q r.tool.description = true)) := by
  refine ⟨rfl, ?_⟩
  have hp : ∀ s : String,
      likeMatch ('%' :: (q.data ++ ['%'])) s.data = true ↔
        specMatchesCI q s = true :=
    fun s => likeMatch_pattern_iff q.data s.data hw
  simp only [search_tools, if_neg hq]
  rw [mem_sortBy, List.mem_filter]
  simp only [Bool.or_eq_true]
  exact and_congr_right (fun _ => or_congr (hp r.tool.name) (hp r.tool.description))

/-- Witness for c3_search_tools_substring at the query zen on dbZ. -/
theorem c3_search_tools_substring_witness :
    ("zen" : String) ≠ "" ∧ noWild ("zen" : String).data = true ∧
    (search_tools dbZ "" = [] ∧
      (searchRowZ ∈ search_tools dbZ "zen" ↔
        searchRowZ ∈ joinRows dbZ ∧
          (specMatchesCI "zen" searchRowZ.tool.name = true ∨
            specMatchesCI "zen" searchRowZ.tool.description = true))) :=
  ⟨by decide, by decide,
    c3_search_tools_substring dbZ "zen" searchRowZ (by decide) (by decide)⟩

/-- Claim C3 counterexample: the query consisting of a single percent
sign returns the Zenodo row even though neither the tool name nor the
description contains a percent sign: the query is spliced into the LIKE
pattern, so its wildcards match everything. -/
theorem c3_wildcard_query_not_substring :
    ∃ r ∈ search_tools dbZ "%",
      specMatchesCI "%" r.tool.name = false ∧
        specMatchesCI "%" r.tool.description = false := by
  decide

/-! ## Claim theorems: layout -/

theorem x_positions_getElem (n i : Nat) (h : i < n) :
    (x_positions n)[i]? = some (specX i) := by
  simp only [x_positions, List.getElem?_map, List.getElem?_range h, Option.map_some]
  rcases Nat.mod_two_eq_zero_or_one i with h2 | h2 <;> simp [specX, h2, radius]

theorem y_positions_getElem (n i : Nat) (h : i < n) :
    (y_positions n)[i]? = some (specY i) := by
  simp only [y_positions, List.getElem?_map, List.getElem?_range h, Option.map_some]
  rcases Nat.mod_two_eq_zero_or_one i with h2 | h2 <;> simp [specY, h2, radius]

/-- Claim C5: every stage index below the stage count is placed at
x = -0.8 times the radius, y = the radius when the index is even, and
at x = 0.8 times the radius, y = minus the radius when it is odd; the
angle list is computed from the index but never read, so it does not
influence these coordinates. -/
theorem c5_stage_positions (n i : Nat) (h : i < n) :
    (x_positions n)[i]? = some (specX i) ∧
    (y_positions n)[i]? = some (specY i) :=
  ⟨x_positions_getElem n i h, y_positions_getElem n i h⟩

/-- Witness for c5_stage_positions at the second of two stages. -/
theorem c5_stage_positions_witness :
    1 < 2 ∧
    ((x_positions 2)[1]? = some (specX 1) ∧
      (y_positions 2)[1]? = some (specY 1)) :=
  ⟨by decide, c5_stage_positions 2 1 (by decide)⟩

theorem pyIndex_nonneg (l : List ℚ) (i : Int) (v : ℚ) (h0 : 0 ≤ i)
    (hv : l[i.toNat]? = some v) : pyIndex l i = .ok v := by
  rcases List.getElem?_eq_some.mp hv with ⟨hlt, hget⟩
  have hni : ¬ i < 0 := by omega
  simp only [pyIndex, if_neg hni]
  rw [dif_pos ⟨h0, by omega⟩]
  exact congrArg Except.ok (by rw [List.get_eq_getElem]; exact hget)

/-- For a connection with both stage ids at least 1, connLine draws
exactly the line the specification predicts. -/
theorem connLine_ok (n : Nat) (c : ConnRow)
    (hf : 1 ≤ c.from_stage_id) (ht : 1 ≤ c.to_stage_id) :
    connLine n (x_positions n) (y_positions n) c = .ok (lineFor n c) := by
  by_cases hb : c.from_stage_id - 1 < (n : Int) ∧ c.to_stage_id - 1 < (n : Int)
  · have hfn : (c.from_stage_id - 1).toNat < n := by omega
    have htn : (c.to_stage_id - 1).toNat < n := by omega
    have hxf := pyIndex_nonneg (x_positions n) (c.from_stage_id - 1)
      (specX (c.from_stage_id - 1).toNat) (by omega) (x_positions_getElem n _ hfn)
    have hxt := pyIndex_nonneg (x_positions n) (c.to_stage_id - 1)
      (specX (c.to_stage_id - 1).toNat) (by omega) (x_positions_getElem n _ htn)
    have hyf := pyIndex_nonneg (y_positions n) (c.from_stage_id - 1)
      (specY (c.from_stage_id - 1).toNat) (by omega) (y_positions_getElem n _ hfn)
    have hyt := pyIndex_nonneg (y_positions n) (c.to_stage_id - 1)
      (specY (c.to_stage_id - 1).toNat) (by omega) (y_positions_getElem n _ htn)
    simp only [connLine, lineFor, if_pos hb, hxf, hxt, hyf, hyt]
  · simp only [connLine, lineFor, if_neg hb]

/-- Claim C4 (amended): restricted to connections whose stage ids are
at least 1, a line is drawn between the positions of the two endpoint
stages exactly when both shifted indices are below the stage count,
dashed when the connection type is alternative and solid otherwise;
ids below 1 escape the bound check of the source, which tests no lower
bound. -/
theorem c4_connection_lines (stages : List StageRow) (conns : List ConnRow)
    (h : ∀ c ∈ conns, 1 ≤ c.from_stage_id ∧ 1 ≤ c.to_stage_id) :
    create_lifecycle_visualization stages conns =
      .ok (conns.filterMap (lineFor stages.length)) := by
  unfold create_lifecycle_visualization
  revert h
  induction conns with
  | nil => intro _; rfl
  | cons c cs ih =>
    intro h
    have hc := h c (List.mem_cons_self c cs)
    have hcs : ∀ x ∈ cs, 1 ≤ x.from_stage_id ∧ 1 ≤ x.to_stage_id :=
      fun x hx => h x (List.mem_cons_of_mem c hx)
    simp only [connectionLines, connLine_ok stages.length c hc.1 hc.2,
      List.filterMap_cons]
    cases hl : lineFor stages.length c with
    | none => exact ih hcs
    | some tr => rw [ih hcs]

/-- Witness for c4_connection_lines: one alternative in-range
connection and one connection whose target index is out of range. -/
theorem c4_connection_lines_witness :
    (∀ c ∈ [connAlt, connBig], 1 ≤ c.from_stage_id ∧ 1 ≤ c.to_stage_id) ∧
    create_lifecycle_visualization stagesTwo [connAlt, connBig] =
      .ok ([connAlt, connBig].filterMap (lineFor stagesTwo.length)) :=
  ⟨by decide, c4_connection_lines stagesTwo [connAlt, connBig] (by decide)⟩

/-- Claim C4 counterexample: the connection with from_stage_id 0 has
the out-of-bounds shifted index -1, yet a line is drawn: the source
checks only the upper bound and the Python index -1 wraps to the last
stage position. -/
theorem c4_negative_index_still_draws :
    connZero.from_stage_id - 1 < 0 ∧
    create_lifecycle_visualization stagesTwo [connZero] =
      .ok [⟨[4/5, 4/5], [-1, -1], false⟩] := by
  constructor
  · decide
  · have hx : x_positions 2 = [-(4/5), 4/5] := by
      simp [x_positions, List.range_succ, radius]
    have hy : y_positions 2 = [1, -1] := by
      simp [y_positions, List.range_succ, radius]
    show connectionLines 2 (x_positions 2) (y_positions 2) [connZero] = _
    rw [hx, hy]
    rfl

end Maldreth
